import Mathlib

/-!
Verification of the `nat_demo` repository: a shallow embedding of
`src/nat_demo/langgraph_time_agent.py` and `src/nat_demo/weather_tool.py`,
together with theorems settling the specification claims.

Modelling conventions:
* Instants are integers counting seconds since an (arbitrary) epoch; a
  timezone's semantics is given by an environment (`TimeEnv`) mapping a zone
  key to its UTC offset in seconds, both as a function of an absolute instant
  (`offsetAtUtc`, used by `fromutc`/`astimezone` and by `datetime.now(tz)`)
  and as a function of a naive local timestamp (`offsetAtLocal`, the offset
  `ZoneInfo` assigns when a naive datetime is constructed with `tzinfo=`,
  i.e. the `fold=0` disambiguation).  Local timestamps are likewise linear
  second counts; the calendar day is the floor quotient by 86400 and the
  time of day the remainder, which matches Python's `datetime` arithmetic.
* All `datetime.now(...)` reads within one call are modelled as reading the
  single instant `TimeEnv.nowUtc`.
* HTTP providers are modelled as functions in the environment returning
  either a transport-level failure (`raise_for_status` raising, or a
  malformed body) or a parsed payload.
* Python exceptions become the `Err` type of an `Except` computation;
  `ValueError` raised by `int(...)` and by the `datetime` constructor's
  range check are both `Err.valueError`, while the `ValueError` carrying
  the "City not found" message keeps its payload as `Err.cityNotFound`.
* Python's `int(...)` is modelled for ordinary decimal literals (optional
  surrounding whitespace, optional sign, decimal digits); numeric-literal
  underscores are not modelled.
* `zoneinfo.ZoneInfo` interns its instances per key, so `astimezone` to a
  zone constructed from the *same* key hits the `tz is mytz` shortcut and
  returns the datetime unchanged; `convert_time` models this with an
  explicit equality test on the two zone keys.
-/

namespace NatDemo

/-! ## Python string primitives used by the source -/

/-- ASCII whitespace stripped by `str.strip()` (Unicode whitespace beyond
these is not modelled). -/
def pyWS (c : Char) : Bool :=
  c = ' ' || c = '\t' || c = '\n' || c = '\r' || c = '\x0b' || c = '\x0c'

/-- Leading-whitespace removal, the left half of `str.strip()`. -/
def lstrip (cs : List Char) : List Char := cs.dropWhile pyWS

/-- Trailing-whitespace removal, the right half of `str.strip()`. -/
def rstrip (cs : List Char) : List Char := (cs.reverse.dropWhile pyWS).reverse

/-- Python `str.strip()`. -/
def pyStrip (cs : List Char) : List Char := rstrip (lstrip cs)

/-- Python `str.split(":")`: splits at every colon; `"".split(":") = [""]`,
`"::".split(":") = ["", "", ""]`. -/
def splitColon : List Char → List (List Char)
  | [] => [[]]
  | c :: rest =>
    if c = ':' then [] :: splitColon rest
    else
      match splitColon rest with
      | [] => [[c]]
      | g :: gs => (c :: g) :: gs

/-- Value of a nonempty all-digit character run, `none` otherwise. -/
def digitsVal (cs : List Char) : Option Nat :=
  if cs = [] then none
  else
    cs.foldl
      (fun acc c =>
        match acc with
        | none => none
        | some n => if c.isDigit then some (n * 10 + (c.toNat - '0'.toNat)) else none)
      (some 0)

/-- Python `int(s)` on a decimal string: strips surrounding whitespace,
accepts an optional sign, then requires a nonempty digit run; `none` models
the `ValueError` raise. -/
def pyInt (cs : List Char) : Option Int :=
  match pyStrip cs with
  | '+' :: rest => (digitsVal rest).map (fun n => (n : Int))
  | '-' :: rest => (digitsVal rest).map (fun n => -(n : Int))
  | rest => (digitsVal rest).map (fun n => (n : Int))

/-- Two-digit zero padding, as `strftime` uses for `%H`, `%M`, `%S`. -/
def pad2 (n : Nat) : String :=
  if n < 10 then "0" ++ toString n else toString n

/-- `strftime('%H:%M')` of a time of day given in seconds. -/
def fmtHM (tod : Nat) : String :=
  pad2 (tod / 3600) ++ ":" ++ pad2 (tod % 3600 / 60)

/-- `strftime('%H:%M:%S')` of a time of day given in seconds. -/
def fmtHMS (tod : Nat) : String :=
  fmtHM tod ++ ":" ++ pad2 (tod % 60)

/-! ## Code-point order on strings (Python's `sorted` on `str`) -/

/-- Strict lexicographic order on character lists by code point, the order
Python's `sorted` applies to strings. -/
def pyLtChars : List Char → List Char → Bool
  | [], [] => false
  | [], _ :: _ => true
  | _ :: _, [] => false
  | a :: as, b :: bs =>
    if a.toNat < b.toNat then true
    else if b.toNat < a.toNat then false
    else pyLtChars as bs

/-- Strict code-point order on strings. -/
def pyLt (a b : String) : Bool := pyLtChars a.data b.data

/-- Reflexive code-point order on strings. -/
def pyLe (a b : String) : Bool := ! pyLt b a

/-! ## Error model -/

/-- Python exceptions reachable in the embedded code. -/
inductive Err where
  /-- `ValueError(f"City not found: {city}")` from the geocoding step. -/
  | cityNotFound (city : String)
  /-- `requests` `raise_for_status()` raising, or a malformed JSON body. -/
  | providerError
  /-- `zoneinfo.ZoneInfoNotFoundError` from `ZoneInfo(key)` on an unknown key. -/
  | zoneNotFound
  /-- `ValueError` from `int(...)` or from `datetime`'s field range check. -/
  | valueError
  /-- `IndexError` from indexing past the end of a list. -/
  | indexError
deriving DecidableEq

/-! ## Geocoding provider (Open-Meteo search endpoint, `count=1`) -/

/-- One element of the provider's `results` array (the fields the code
reads). -/
structure Location where
  timezone : String
  latitude : Rat
  longitude : Rat
  name : String
deriving DecidableEq

/-- Outcome of one geocoding GET for a given `name` parameter: transport
failure, or a parsed `results` array (a missing/`null`/empty `results`
field is the empty list — all are falsy in `if not geo_data.get("results")`). -/
inductive GeoReply where
  | httpError
  | ok (results : List Location)

/-- `_get_timezone_for_city` (langgraph_time_agent.py lines 29–39): one
geocoding lookup; zero results raise `ValueError(f"City not found: ...")`,
otherwise the first result's `timezone` field is returned verbatim. -/
def get_timezone_for_city (geo : String → GeoReply) (city_name : String) :
    Except Err String :=
  match geo city_name with
  | GeoReply.httpError => Except.error Err.providerError
  | GeoReply.ok [] => Except.error (Err.cityNotFound city_name)
  | GeoReply.ok (loc :: _) => Except.ok loc.timezone

/-! ## Time environment -/

/-- Ambient facts a single agent-function invocation reads: the geocoding
provider, the `zoneinfo` database and the system clock. -/
structure TimeEnv where
  /-- Geocoding provider, keyed by the `name` query parameter. -/
  geo : String → GeoReply
  /-- Whether `ZoneInfo(key)` succeeds for this key. -/
  tzKnown : String → Bool
  /-- Zone's UTC offset (seconds) as a function of an absolute instant. -/
  offsetAtUtc : String → Int → Int
  /-- Offset `ZoneInfo` attaches to a naive local timestamp (`fold=0`). -/
  offsetAtLocal : String → Int → Int
  /-- `%Z` abbreviation of the zone at an absolute instant. -/
  abbrevAtUtc : String → Int → String
  /-- `strftime('%Y-%m-%d')` of a local calendar day number (the proleptic
  Gregorian rendering, modelled abstractly). -/
  dateIso : Int → String
  /-- The single instant at which every `datetime.now(...)` in the call is
  read. -/
  nowUtc : Int

/-- `datetime.now(tz)` as a linear local timestamp. -/
def localOfNow (env : TimeEnv) (z : String) : Int :=
  env.nowUtc + env.offsetAtUtc z env.nowUtc

/-- `datetime.now(tz).date()` as a calendar day number. -/
def localDay (env : TimeEnv) (z : String) : Int :=
  (localOfNow env z) / 86400

/-- The absolute instant denoted by a naive local timestamp once `ZoneInfo`
attaches its offset (`datetime(..., tzinfo=tz)` followed by instant
arithmetic). -/
def utcOfLocal (env : TimeEnv) (z : String) (l : Int) : Int :=
  l - env.offsetAtLocal z l

/-- The local timestamp a zone assigns to an absolute instant
(`astimezone` / `fromutc`). -/
def localOfUtc (env : TimeEnv) (z : String) (u : Int) : Int :=
  u + env.offsetAtUtc z u

/-! ## Time tools -/

/-- `get_current_time` (lines 42–55): resolve the city's timezone, read the
current instant in that zone and render
`"The current time in {city} is {%Y-%m-%d %H:%M:%S %Z} (timezone: {tz})"`. -/
def get_current_time (env : TimeEnv) (city_name : String) : Except Err String :=
  match get_timezone_for_city env.geo city_name with
  | Except.error e => Except.error e
  | Except.ok timezone_str =>
    if env.tzKnown timezone_str = false then Except.error Err.zoneNotFound
    else
      let lnow := localOfNow env timezone_str
      Except.ok ("The current time in " ++ city_name ++ " is "
        ++ env.dateIso (lnow / 86400) ++ " " ++ fmtHMS (lnow % 86400).toNat ++ " "
        ++ env.abbrevAtUtc timezone_str env.nowUtc
        ++ " (timezone: " ++ timezone_str ++ ")")

/-- The `time_str` handling of `convert_time` (lines 77–78), factored out
for specification: `time_parts = time_str.strip().split(":")` followed by
`hour, minute = int(time_parts[0]), int(time_parts[1])` (evaluated left to
right, so a failing `int` on the first part raises before the `[1]` index
is taken). -/
def parseHM (time_str : String) : Except Err (Int × Int) :=
  let time_parts := splitColon (pyStrip time_str.data)
  match time_parts[0]? with
  | none => Except.error Err.indexError
  | some p0 =>
    match pyInt p0 with
    | none => Except.error Err.valueError
    | some hour =>
      match time_parts[1]? with
      | none => Except.error Err.indexError
      | some p1 =>
        match pyInt p1 with
        | none => Except.error Err.valueError
        | some minute => Except.ok (hour, minute)

/-- `convert_time` (lines 58–94): resolve both cities' timezones, parse
`time_str`, build a source-zone timestamp on today's date in the source
zone, convert it with `astimezone`, read both zones' current times and
render the sentence of lines 89–94.  The `datetime` constructor's field
range check is the `ValueError` branch after parsing; the `astimezone`
call short-circuits to the unchanged datetime when both `ZoneInfo` keys
are equal (interned instances make `tz is mytz` true exactly then). -/
def convert_time (env : TimeEnv) (source_city target_city time_str : String) :
    Except Err String :=
  match get_timezone_for_city env.geo source_city with
  | Except.error e => Except.error e
  | Except.ok source_tz =>
  match get_timezone_for_city env.geo target_city with
  | Except.error e => Except.error e
  | Except.ok target_tz =>
  if env.tzKnown source_tz = false then Except.error Err.zoneNotFound
  else if env.tzKnown target_tz = false then Except.error Err.zoneNotFound
  else
  match parseHM time_str with
  | Except.error e => Except.error e
  | Except.ok (hour, minute) =>
  if hour < 0 ∨ 23 < hour ∨ minute < 0 ∨ 59 < minute then Except.error Err.valueError
  else
    let today := localDay env source_tz
    let source_local := today * 86400 + hour * 3600 + minute * 60
    let source_str := pad2 hour.toNat ++ ":" ++ pad2 minute.toNat
    let target_str :=
      if source_tz = target_tz then source_str
      else fmtHM ((localOfUtc env target_tz (utcOfLocal env source_tz source_local)) % 86400).toNat
    let now_source := localOfNow env source_tz
    let now_target := localOfNow env target_tz
    Except.ok (source_str ++ " in " ++ source_city ++ " = "
      ++ target_str ++ " in " ++ target_city
      ++ " (currently " ++ fmtHM (now_source % 86400).toNat ++ " "
      ++ env.abbrevAtUtc source_tz env.nowUtc ++ " in " ++ source_city
      ++ ", " ++ fmtHM (now_target % 86400).toNat ++ " "
      ++ env.abbrevAtUtc target_tz env.nowUtc ++ " in " ++ target_city ++ ")")

/-! ## Message traces and the deterministic response assembler -/

/-- The `type` tag of a LangChain message (`"human"`, `"ai"`, `"tool"`). -/
inductive MsgType where
  | human
  | ai
  | tool
deriving DecidableEq

/-- One `tool_calls` entry: its `args` mapping (a dict, so keys are
effectively unique; lookup takes the first binding). -/
structure ToolCall where
  args : List (String × String)
deriving DecidableEq

/-- One entry of `result["messages"]`.  LangChain AI messages always carry
a `tool_calls` attribute, so the source's `hasattr(msg, "tool_calls")`
guard is always true for `type == "ai"` and the field is total here. -/
structure Msg where
  type : MsgType
  content : String
  tool_calls : List ToolCall
deriving DecidableEq

/-- The three argument keys probed on line 130. -/
def cityKeys : List String := ["city_name", "source_city", "target_city"]

/-- City names one invocation contributes (`for key in (...): if key in
tc.get("args", {})`). -/
def tcCities (tc : ToolCall) : List String :=
  cityKeys.filterMap (fun key => tc.args.lookup key)

/-- `tool_results` accumulated by the trace walk of lines 125–127: contents
of tool messages, in trace order. -/
def toolResults (msgs : List Msg) : List String :=
  (msgs.filter (fun m => m.type = MsgType.tool)).map (fun m => m.content)

/-- All city names discovered by the trace walk of lines 128–132, in trace
order, before deduplication. -/
def collectCities (msgs : List Msg) : List String :=
  msgs.flatMap (fun m =>
    if m.type = MsgType.ai then m.tool_calls.flatMap tcCities else [])

/-- `sorted(cities)`: the set of discovered cities listed in code-point
order. -/
def sortedCities (msgs : List Msg) : List String :=
  List.insertionSort (fun a b => pyLe a b = true) (collectCities msgs).dedup

/-- One backstop lookup of lines 138–140: resolve the city, construct the
zone, read the current time and render
`"Current time in {city}: {%H:%M %Z}"`.  Any `Except.error` models the
exception swallowed by the bare `except Exception: pass`. -/
def backstopFragment (env : TimeEnv) (city : String) : Except Err String :=
  match get_timezone_for_city env.geo city with
  | Except.error e => Except.error e
  | Except.ok tz_str =>
    if env.tzKnown tz_str = false then Except.error Err.zoneNotFound
    else
      let lnow := localOfNow env tz_str
      Except.ok ("Current time in " ++ city ++ ": " ++ fmtHM (lnow % 86400).toNat
        ++ " " ++ env.abbrevAtUtc tz_str env.nowUtc)

/-- The successful backstop fragment text for a city (junk when resolution
fails; only quoted where `backstopFragment` succeeds). -/
def fragString (env : TimeEnv) (city : String) : String :=
  match get_timezone_for_city env.geo city with
  | Except.error _ => ""
  | Except.ok tz_str =>
    "Current time in " ++ city ++ ": " ++ fmtHM ((localOfNow env tz_str) % 86400).toNat
      ++ " " ++ env.abbrevAtUtc tz_str env.nowUtc

/-- `_response_fn` (lines 118–144) after the agent loop returned the trace
`msgs`: collect tool outputs and discovered cities, seed the fragment list
with the tool outputs (else the last message's content), append one
best-effort current-time fragment per discovered city in sorted order,
swallowing per-city failures, and join with `". "`.  The `[-1]` index on an
empty trace is the only possible raise. -/
def response_fn (env : TimeEnv) (msgs : List Msg) : Except Err String :=
  let tool_results := toolResults msgs
  let base : Except Err (List String) :=
    if tool_results.isEmpty then
      match msgs.getLast? with
      | none => Except.error Err.indexError
      | some m => Except.ok [m.content]
    else Except.ok tool_results
  match base with
  | Except.error e => Except.error e
  | Except.ok parts =>
    Except.ok (String.intercalate ". "
      ((sortedCities msgs).foldl
        (fun ps city =>
          match backstopFragment env city with
          | Except.ok frag => ps ++ [frag]
          | Except.error _ => ps)
        parts))

/-! ## Weather tool -/

/-- The `daily` arrays of the forecast response (the keys the code reads;
a missing key would be a malformed body, folded into the transport
failure). -/
structure DailyData where
  temperature_2m_max : List Rat
  temperature_2m_min : List Rat
  weathercode : List Int
  windspeed_10m_max : List Rat
deriving DecidableEq

/-- The query parameters of the forecast GET (weather_tool.py lines
71–86). -/
structure ForecastQuery where
  latitude : Rat
  longitude : Rat
  daily : List String
  timezone : String
  start_date : String
  end_date : String
deriving DecidableEq

/-- Outcome of one forecast GET. -/
inductive ForecastReply where
  | httpError
  | ok (daily : DailyData)

/-- Environment of one `get_today_weather` call. -/
structure WeatherEnv where
  /-- Geocoding provider (same endpoint as the time agent's). -/
  geo : String → GeoReply
  /-- `date.today().isoformat()`: today's date on the invoking process's
  local clock — not the resolved city's local date. -/
  todayIso : String
  /-- Forecast provider, keyed by the full query-parameter record. -/
  forecast : ForecastQuery → ForecastReply

/-- The record returned by `get_today_weather`. -/
structure WeatherRecord where
  city : String
  date : String
  temperature_max : Rat
  temperature_min : Rat
  weather_code : Int
  wind_speed_max : Rat
deriving DecidableEq

/-- The `daily` metrics requested on lines 76–81. -/
def dailyMetrics : List String :=
  ["temperature_2m_max", "temperature_2m_min", "weathercode", "windspeed_10m_max"]

/-- The forecast query of lines 71–86: both `start_date` and `end_date` are
the same single process-local date and `timezone=auto`. -/
def weatherQuery (location : Location) (today : String) : ForecastQuery :=
  { latitude := location.latitude, longitude := location.longitude,
    daily := dailyMetrics, timezone := "auto",
    start_date := today, end_date := today }

/-- `get_today_weather` (weather_tool.py lines 41–99): geocode the city
(zero results raise `ValueError`), query the forecast for today's
process-local date, and read index 0 of each daily array. -/
def get_today_weather (env : WeatherEnv) (city : String) : Except Err WeatherRecord :=
  match env.geo city with
  | GeoReply.httpError => Except.error Err.providerError
  | GeoReply.ok [] => Except.error (Err.cityNotFound city)
  | GeoReply.ok (location :: _) =>
    let today := env.todayIso
    match env.forecast (weatherQuery location today) with
    | ForecastReply.httpError => Except.error Err.providerError
    | ForecastReply.ok daily =>
      match daily.temperature_2m_max[0]?, daily.temperature_2m_min[0]?,
            daily.weathercode[0]?, daily.windspeed_10m_max[0]? with
      | some tmax, some tmin, some code, some wind =>
        Except.ok { city := location.name, date := today,
                    temperature_max := tmax, temperature_min := tmin,
                    weather_code := code, wind_speed_max := wind }
      | _, _, _, _ => Except.error Err.indexError

/-! ## Concrete test fixtures

A small closed world used to instantiate theorems with hypotheses: two
known cities at constant whole-hour offsets (Warsaw UTC+1, Tokyo UTC+9)
and a clock reading 12:30:00 UTC on day 0, so Warsaw reads 13:30 and Tokyo
21:30. -/

/-- Geocoding entry for Warsaw. -/
def warsawLoc : Location :=
  { timezone := "Europe/Warsaw", latitude := 52, longitude := 21, name := "Warsaw" }

/-- Geocoding entry for Tokyo. -/
def tokyoLoc : Location :=
  { timezone := "Asia/Tokyo", latitude := 35, longitude := 139, name := "Tokyo" }

/-- Test geocoding table: Warsaw and Tokyo resolve, everything else yields
zero results. -/
def testGeo : String → GeoReply := fun name =>
  if name = "Warsaw" then GeoReply.ok [warsawLoc]
  else if name = "Tokyo" then GeoReply.ok [tokyoLoc]
  else GeoReply.ok []

/-- Test time environment with constant offsets and a fixed clock. -/
def testEnv : TimeEnv :=
  { geo := testGeo
    tzKnown := fun z => z = "Europe/Warsaw" || z = "Asia/Tokyo"
    offsetAtUtc := fun z _ => if z = "Asia/Tokyo" then 32400 else if z = "Europe/Warsaw" then 3600 else 0
    offsetAtLocal := fun z _ => if z = "Asia/Tokyo" then 32400 else if z = "Europe/Warsaw" then 3600 else 0
    abbrevAtUtc := fun z _ => if z = "Asia/Tokyo" then "JST" else if z = "Europe/Warsaw" then "CET" else "UTC"
    dateIso := fun _ => "2026-10-12"
    nowUtc := 45000 }

/-! ## Order lemmas for the code-point order -/

theorem char_eq_of_toNat_eq {a b : Char} (h : a.toNat = b.toNat) : a = b :=
  Char.ext (UInt32.ext h)

theorem pyLtChars_irrefl : ∀ as : List Char, pyLtChars as as = false := by
  intro as
  induction as with
  | nil => rfl
  | cons a as ih => simp [pyLtChars, ih]

theorem pyLtChars_trans :
    ∀ as bs cs : List Char, pyLtChars as bs = true → pyLtChars bs cs = true →
      pyLtChars as cs = true := by
  intro as
  induction as with
  | nil =>
    intro bs cs h1 h2
    cases bs with
    | nil => simp [pyLtChars] at h1
    | cons b bs =>
      cases cs with
      | nil => simp [pyLtChars] at h2
      | cons c cs => simp [pyLtChars]
  | cons a as ih =>
    intro bs cs h1 h2
    cases bs with
    | nil => simp [pyLtChars] at h1
    | cons b bs =>
      cases cs with
      | nil => simp [pyLtChars] at h2
      | cons c cs =>
        simp only [pyLtChars] at h1 h2 ⊢
        by_cases hab : a.toNat < b.toNat <;> by_cases hbc : b.toNat < c.toNat <;>
          simp [hab, hbc] at h1 h2 ⊢
        · exact Or.inl (by omega)
        · exact Or.inl (by omega)
        · exact Or.inl (by omega)
        · exact Or.inr ⟨by omega, ih bs cs h1.2 h2.2⟩

theorem pyLtChars_trichotomy :
    ∀ as bs : List Char, pyLtChars as bs = true ∨ as = bs ∨ pyLtChars bs as = true := by
  intro as
  induction as with
  | nil =>
    intro bs
    cases bs with
    | nil => right; left; rfl
    | cons b bs => left; rfl
  | cons a as ih =>
    intro bs
    cases bs with
    | nil => right; right; rfl
    | cons b bs =>
      rcases Nat.lt_trichotomy a.toNat b.toNat with hlt | heq | hgt
      · left; simp [pyLtChars, hlt]
      · have hab : a = b := char_eq_of_toNat_eq heq
        subst hab
        rcases ih bs with h | h | h
        · left; simp [pyLtChars, h]
        · right; left; rw [h]
        · right; right; simp [pyLtChars, h]
      · right; right; simp [pyLtChars, hgt, Nat.lt_asymm hgt]

theorem string_eq_of_data_eq {a b : String} (h : a.data = b.data) : a = b := by
  cases a; cases b
  exact congrArg String.mk h

theorem pyLt_asymm {a b : String} (h : pyLt a b = true) : pyLt b a = false := by
  by_contra hc
  have hba : pyLt b a = true := by
    cases hv : pyLt b a
    · exact absurd hv hc
    · rfl
  have := pyLtChars_trans a.data b.data a.data h hba
  rw [pyLtChars_irrefl] at this
  exact Bool.false_ne_true this

theorem pyLe_of_ne_of_not_lt {a b : String} (hne : a ≠ b) (h : pyLt a b = false) :
    pyLt b a = true := by
  rcases pyLtChars_trichotomy a.data b.data with hlt | heq | hgt
  · rw [pyLt] at h; rw [h] at hlt; exact absurd hlt (by simp)
  · exact absurd (string_eq_of_data_eq heq) hne
  · exact hgt

instance instIsTotalPyLe : IsTotal String (fun a b => pyLe a b = true) := by
  constructor
  intro a b
  simp only [pyLe, Bool.not_eq_eq_eq_not, Bool.not_true]
  cases hv : pyLt b a
  · left; rfl
  · right; exact pyLt_asymm hv

instance instIsTransPyLe : IsTrans String (fun a b => pyLe a b = true) := by
  constructor
  intro a b c hab hbc
  simp only [pyLe, Bool.not_eq_eq_eq_not, Bool.not_true] at hab hbc ⊢
  by_contra hc
  have hca : pyLt c a = true := by
    cases hv : pyLt c a
    · exact absurd hv hc
    · rfl
  rcases pyLtChars_trichotomy a.data b.data with hlt | heq | hgt
  · have h2 := pyLtChars_trans c.data a.data b.data hca hlt
    have hbc' : pyLtChars c.data b.data = false := hbc
    rw [hbc'] at h2
    exact Bool.false_ne_true h2
  · have hab' : a = b := string_eq_of_data_eq heq
    subst hab'
    rw [hbc] at hca
    exact Bool.false_ne_true hca
  · have hab' : pyLtChars b.data a.data = false := hab
    rw [hab'] at hgt
    exact Bool.false_ne_true hgt

/-! ## Properties of the discovered-city list -/

theorem pyLt_of_pyLe_of_ne {a b : String} (h : pyLe a b = true) (hne : a ≠ b) :
    pyLt a b = true := by
  have h' : pyLt b a = false := by
    simp only [pyLe, Bool.not_eq_eq_eq_not, Bool.not_true] at h
    exact h
  exact pyLe_of_ne_of_not_lt (fun hba => hne hba.symm) h'

theorem sortedCities_nodup (msgs : List Msg) : (sortedCities msgs).Nodup :=
  (List.perm_insertionSort _ _).nodup_iff.mpr (List.nodup_dedup _)

theorem mem_sortedCities (msgs : List Msg) (c : String) :
    c ∈ sortedCities msgs ↔ c ∈ collectCities msgs :=
  ((List.perm_insertionSort _ _).mem_iff).trans List.mem_dedup

theorem sortedCities_sorted_le (msgs : List Msg) :
    List.Sorted (fun a b => pyLe a b = true) (sortedCities msgs) :=
  List.sorted_insertionSort _ _

/-- The city list is strictly increasing in code-point order: sorted, and
with each city exactly once. -/
theorem sortedCities_sorted_lt (msgs : List Msg) :
    List.Sorted (fun a b => pyLt a b = true) (sortedCities msgs) := by
  have hs := sortedCities_sorted_le msgs
  have hn : List.Pairwise (fun a b : String => a ≠ b) (sortedCities msgs) :=
    sortedCities_nodup msgs
  exact (hs.and hn).imp (fun h => pyLt_of_pyLe_of_ne h.1 h.2)

/-! ## Normal forms of the assembler -/

theorem backstopFragment_ok {env : TimeEnv} {c s : String}
    (h : backstopFragment env c = Except.ok s) : s = fragString env c := by
  unfold backstopFragment at h
  unfold fragString
  cases hg : get_timezone_for_city env.geo c with
  | error e => rw [hg] at h; simp at h
  | ok tz =>
    rw [hg] at h
    dsimp only at h ⊢
    by_cases hk : env.tzKnown tz = false
    · rw [if_pos hk] at h; simp at h
    · rw [if_neg hk] at h
      simp only [Except.ok.injEq] at h
      exact h.symm

theorem foldl_backstop (env : TimeEnv) :
    ∀ (l : List String) (parts : List String),
      l.foldl
        (fun ps city =>
          match backstopFragment env city with
          | Except.ok frag => ps ++ [frag]
          | Except.error _ => ps)
        parts
      = parts
        ++ (l.filter (fun c => (backstopFragment env c).isOk)).map (fragString env) := by
  intro l
  induction l with
  | nil => intro parts; simp
  | cons c l ih =>
    intro parts
    simp only [List.foldl_cons, List.filter_cons]
    cases hb : backstopFragment env c with
    | ok s =>
      have hs := backstopFragment_ok hb
      rw [ih]
      simp [Except.isOk, Except.toBool, hs]
    | error e =>
      rw [ih]
      simp [Except.isOk, Except.toBool]

theorem response_fn_with_toolResults (env : TimeEnv) (msgs : List Msg)
    (htr : toolResults msgs ≠ []) :
    response_fn env msgs = Except.ok (String.intercalate ". "
      (toolResults msgs
        ++ ((sortedCities msgs).filter (fun c => (backstopFragment env c).isOk)).map
            (fragString env))) := by
  unfold response_fn
  have he : (toolResults msgs).isEmpty = false := by
    simpa using htr
  simp only [he, Bool.false_eq_true, if_false, foldl_backstop]

theorem response_fn_fallback (env : TimeEnv) (msgs : List Msg)
    (hne : msgs ≠ []) (htr : toolResults msgs = []) :
    response_fn env msgs = Except.ok (String.intercalate ". "
      ((msgs.getLast hne).content
        :: ((sortedCities msgs).filter (fun c => (backstopFragment env c).isOk)).map
            (fragString env))) := by
  unfold response_fn
  have he : (toolResults msgs).isEmpty = true := by
    simp [htr]
  simp only [he, if_true, List.getLast?_eq_getLast msgs hne, foldl_backstop,
    List.singleton_append]

theorem collectCities_eq_nil (msgs : List Msg)
    (hnotc : ∀ m ∈ msgs, m.type = MsgType.ai → m.tool_calls = []) :
    collectCities msgs = [] := by
  unfold collectCities
  induction msgs with
  | nil => rfl
  | cons m msgs ih =>
    simp only [List.flatMap_cons]
    have h1 : (if m.type = MsgType.ai then m.tool_calls.flatMap tcCities else []) = [] := by
      by_cases ha : m.type = MsgType.ai
      · rw [if_pos ha, hnotc m (by simp) ha]; rfl
      · rw [if_neg ha]
    rw [h1]
    simp only [List.nil_append]
    exact ih (fun m' hm' => hnotc m' (by simp [hm']))

/-! ## Parsing facts about formatted times -/

/-- `pad2` renderings of values below 60 are nonempty, free of whitespace
and colons, and parse back to the rendered value. -/
theorem pad2_facts : ∀ n : Fin 60,
    pyInt (pad2 n.val).data = some ((n.val : Int))
    ∧ (pad2 n.val).data ≠ []
    ∧ ∀ c ∈ (pad2 n.val).data, pyWS c = false ∧ c ≠ ':' := by decide

theorem dropWhile_append_cons {p : Char → Bool} {c : Char} (hc : p c = false) :
    ∀ (as bs : List Char), List.dropWhile p (as ++ c :: bs) = List.dropWhile p as ++ c :: bs := by
  intro as bs
  induction as with
  | nil => simp [List.dropWhile_cons, hc]
  | cons a as ih =>
    by_cases ha : p a
    · simpa [List.dropWhile_cons, ha] using ih
    · simp [List.dropWhile_cons, ha]

theorem rstrip_append_cons {c : Char} (hc : pyWS c = false) (as bs : List Char) :
    rstrip (as ++ c :: bs) = as ++ c :: rstrip bs := by
  unfold rstrip
  rw [List.reverse_append, List.reverse_cons, List.append_assoc,
    List.singleton_append, dropWhile_append_cons hc, List.reverse_append,
    List.reverse_cons, List.reverse_reverse]
  simp

theorem rstrip_of_no_ws (cs : List Char) (hall : ∀ c ∈ cs, pyWS c = false) :
    rstrip cs = cs := by
  unfold rstrip
  have h : cs.reverse.dropWhile pyWS = cs.reverse := by
    cases hr : cs.reverse with
    | nil => rfl
    | cons d ds =>
      have hd : d ∈ cs := by
        rw [← List.mem_reverse, hr]; simp
      rw [List.dropWhile_cons, hall d hd]
      simp
  rw [h, List.reverse_reverse]

theorem lstrip_cons {c : Char} (hc : pyWS c = false) (rest : List Char) :
    lstrip (c :: rest) = c :: rest := by
  simp [lstrip, List.dropWhile_cons, hc]

/-- Stripping a string that starts with a nonempty whitespace-free
colon-free component followed by a colon touches at most the tail. -/
theorem pyStrip_structured (p0 rest : List Char) (h0 : p0 ≠ [])
    (hall : ∀ c ∈ p0, pyWS c = false) :
    pyStrip (p0 ++ ':' :: rest) = p0 ++ ':' :: rstrip rest := by
  unfold pyStrip
  obtain ⟨c, p0', rfl⟩ : ∃ c p0', p0 = c :: p0' := by
    cases p0 with
    | nil => exact absurd rfl h0
    | cons c p0' => exact ⟨c, p0', rfl⟩
  rw [List.cons_append, lstrip_cons (hall c (by simp)), ← List.cons_append,
    rstrip_append_cons (by decide)]

theorem splitColon_no_colon (cs : List Char) (h : ∀ c ∈ cs, c ≠ ':') :
    splitColon cs = [cs] := by
  induction cs with
  | nil => rfl
  | cons c rest ih =>
    unfold splitColon
    rw [if_neg (by simpa using h c (by simp))]
    rw [ih (fun c hc => h c (by simp [hc]))]

theorem splitColon_append (p0 : List Char) (h : ∀ c ∈ p0, c ≠ ':') (rest : List Char) :
    splitColon (p0 ++ ':' :: rest) = p0 :: splitColon rest := by
  induction p0 with
  | nil =>
    simp [splitColon]
  | cons c p0' ih =>
    have hc : ¬(c = ':') := by simpa using h c (by simp)
    rw [List.cons_append]
    simp only [splitColon]
    rw [if_neg hc, ih (fun x hx => h x (by simp [hx]))]

/-- Parsing the rendering of an in-range hour/minute pair recovers the
pair. -/
theorem parseHM_pad2 (h m : Nat) (hh : h < 24) (hm : m < 60) :
    parseHM (pad2 h ++ ":" ++ pad2 m) = Except.ok ((h : Int), (m : Int)) := by
  have fh := pad2_facts ⟨h, by omega⟩
  have fm := pad2_facts ⟨m, hm⟩
  unfold parseHM
  have hdata : (pad2 h ++ ":" ++ pad2 m).data = (pad2 h).data ++ ':' :: (pad2 m).data := by
    rw [String.data_append, String.data_append]
    simp
  rw [hdata]
  rw [pyStrip_structured _ _ fh.2.1 (fun c hc => (fh.2.2 c hc).1)]
  rw [rstrip_of_no_ws _ (fun c hc => (fm.2.2 c hc).1)]
  rw [splitColon_append _ (fun c hc => (fh.2.2 c hc).2)]
  rw [splitColon_no_colon _ (fun c hc => (fm.2.2 c hc).2)]
  simp only [List.getElem?_cons_zero, List.getElem?_cons_succ]
  rw [fh.1, fm.1]

/-- Extra colon-separated components after the minute are ignored by the
parse: only the first two components are read. -/
theorem parseHM_pad2_extra (h m : Nat) (hh : h < 24) (hm : m < 60) (extra : String) :
    parseHM (pad2 h ++ ":" ++ pad2 m ++ ":" ++ extra) = Except.ok ((h : Int), (m : Int)) := by
  have fh := pad2_facts ⟨h, by omega⟩
  have fm := pad2_facts ⟨m, hm⟩
  unfold parseHM
  have hdata : (pad2 h ++ ":" ++ pad2 m ++ ":" ++ extra).data
      = (pad2 h).data ++ ':' :: ((pad2 m).data ++ ':' :: extra.data) := by
    rw [String.data_append, String.data_append, String.data_append, String.data_append]
    simp
  rw [hdata]
  rw [pyStrip_structured _ _ fh.2.1 (fun c hc => (fh.2.2 c hc).1)]
  rw [rstrip_append_cons (by decide)]
  rw [splitColon_append _ (fun c hc => (fh.2.2 c hc).2)]
  rw [splitColon_append _ (fun c hc => (fm.2.2 c hc).2)]
  simp only [List.getElem?_cons_zero, List.getElem?_cons_succ]
  rw [fh.1, fm.1]

/-- `strftime('%H:%M')` output parses back to its hour and minute. -/
theorem parseHM_fmtHM (tod : Nat) (h : tod < 86400) :
    parseHM (fmtHM tod) = Except.ok (((tod / 3600 : Nat) : Int), ((tod % 3600 / 60 : Nat) : Int)) := by
  unfold fmtHM
  exact parseHM_pad2 _ _ (by omega) (by omega)

/-- The direct field rendering of a valid hour/minute pair coincides with
`fmtHM` of the corresponding time of day. -/
theorem pad2_pair_eq_fmtHM (h m : Nat) (hh : h < 24) (hm : m < 60) :
    pad2 h ++ ":" ++ pad2 m = fmtHM (h * 3600 + m * 60) := by
  unfold fmtHM
  have e1 : (h * 3600 + m * 60) / 3600 = h := by omega
  have e2 : (h * 3600 + m * 60) % 3600 / 60 = m := by omega
  rw [e1, e2]

/-! ## Normal form of `convert_time` on the success path -/

theorem convert_time_eq (env : TimeEnv) (s t str za zb : String) (h m : Int)
    (hs : get_timezone_for_city env.geo s = Except.ok za)
    (ht : get_timezone_for_city env.geo t = Except.ok zb)
    (hks : env.tzKnown za = true) (hkt : env.tzKnown zb = true)
    (hp : parseHM str = Except.ok (h, m))
    (hh0 : 0 ≤ h) (hh : h ≤ 23) (hm0 : 0 ≤ m) (hm : m ≤ 59) :
    convert_time env s t str = Except.ok (
      pad2 h.toNat ++ ":" ++ pad2 m.toNat ++ " in " ++ s ++ " = "
      ++ (if za = zb then pad2 h.toNat ++ ":" ++ pad2 m.toNat
          else fmtHM ((localOfUtc env zb
            (utcOfLocal env za (localDay env za * 86400 + h * 3600 + m * 60))) % 86400).toNat)
      ++ " in " ++ t
      ++ " (currently " ++ fmtHM ((localOfNow env za) % 86400).toNat ++ " "
      ++ env.abbrevAtUtc za env.nowUtc ++ " in " ++ s
      ++ ", " ++ fmtHM ((localOfNow env zb) % 86400).toNat ++ " "
      ++ env.abbrevAtUtc zb env.nowUtc ++ " in " ++ t ++ ")") := by
  unfold convert_time
  rw [hs, ht]
  dsimp only
  rw [hks, hkt]
  simp only [Bool.true_eq_false, if_false]
  rw [hp]
  dsimp only
  rw [if_neg (by omega)]

/-! ## Further fixtures: concrete traces -/

/-- A daily payload for the weather fixture. -/
def testDaily : DailyData :=
  { temperature_2m_max := [20], temperature_2m_min := [10],
    weathercode := [3], windspeed_10m_max := [15] }

/-- Weather environment answering exactly the query the code builds for
Warsaw on the fixed day. -/
def testWeatherEnv : WeatherEnv :=
  { geo := testGeo
    todayIso := "2026-10-12"
    forecast := fun q =>
      if q = weatherQuery warsawLoc "2026-10-12" then ForecastReply.ok testDaily
      else ForecastReply.httpError }

/-- Trace with a tool-result message but no ToolInvocations anywhere. -/
def c3trace : List Msg :=
  [ { type := MsgType.human, content := "q", tool_calls := [] }
  , { type := MsgType.tool, content := "A", tool_calls := [] }
  , { type := MsgType.ai, content := "B", tool_calls := [] } ]

/-- Trace with neither ToolInvocations nor tool-result messages. -/
def noToolTrace : List Msg :=
  [ { type := MsgType.human, content := "q", tool_calls := [] }
  , { type := MsgType.ai, content := "B", tool_calls := [] } ]

/-- Trace with one ToolInvocation naming Warsaw but no tool-result
message. -/
def c10trace : List Msg :=
  [ { type := MsgType.human, content := "q", tool_calls := [] }
  , { type := MsgType.ai, content := "B", tool_calls := [ { args := [("city_name", "Warsaw")] } ] } ]

/-- Trace with one tool result and invocations naming Warsaw and Tokyo. -/
def c1trace : List Msg :=
  [ { type := MsgType.human, content := "q", tool_calls := [] }
  , { type := MsgType.ai, content := "",
      tool_calls := [ { args := [("source_city", "Warsaw"), ("target_city", "Tokyo")] } ] }
  , { type := MsgType.tool, content := "T1", tool_calls := [] } ]

/-- Trace with one tool result and invocations naming Warsaw and the
unresolvable Atlantis. -/
def c2trace : List Msg :=
  [ { type := MsgType.human, content := "q", tool_calls := [] }
  , { type := MsgType.ai, content := "",
      tool_calls := [ { args := [("city_name", "Warsaw")] }
                    , { args := [("city_name", "Atlantis")] } ] }
  , { type := MsgType.tool, content := "toolout", tool_calls := [] }
  , { type := MsgType.ai, content := "final", tool_calls := [] } ]

/-! ## Claims -/

/-- C6: if the geocoding provider returns zero matches the resolver fails
with `CityNotFound` carrying the input city name (so in particular it never
returns an empty or falsy identifier), and with at least one match it
returns the first match's `timezone` field verbatim. -/
theorem c6_resolver_contract (geo : String → GeoReply) (city : String) :
    (geo city = GeoReply.ok [] →
      get_timezone_for_city geo city = Except.error (Err.cityNotFound city))
    ∧ (∀ loc rest, geo city = GeoReply.ok (loc :: rest) →
        get_timezone_for_city geo city = Except.ok loc.timezone) := by
  constructor
  · intro hg
    unfold get_timezone_for_city
    rw [hg]
  · intro loc rest hg
    unfold get_timezone_for_city
    rw [hg]

theorem c6_resolver_contract_witness :
    get_timezone_for_city testGeo "Atlantis" = Except.error (Err.cityNotFound "Atlantis")
    ∧ get_timezone_for_city testGeo "Warsaw" = Except.ok "Europe/Warsaw" :=
  ⟨(c6_resolver_contract testGeo "Atlantis").1 rfl,
   (c6_resolver_contract testGeo "Warsaw").2 warsawLoc [] rfl⟩

/-- C9: the weather tool queries the forecast provider at exactly one date
— the invoking process's local date (`WeatherEnv.todayIso`, the model of
`date.today()`), sent as both `start_date` and `end_date` — and returns
the provider's resolved display name, that ISO date, and index 0 of each
daily array. -/
theorem c9_weather_today (env : WeatherEnv) (city : String) (loc : Location)
    (rest : List Location) (d : DailyData) (tmax tmin wind : Rat) (code : Int)
    (tmaxs tmins winds : List Rat) (codes : List Int)
    (hgeo : env.geo city = GeoReply.ok (loc :: rest))
    (hfc : env.forecast (weatherQuery loc env.todayIso) = ForecastReply.ok d)
    (h1 : d.temperature_2m_max = tmax :: tmaxs)
    (h2 : d.temperature_2m_min = tmin :: tmins)
    (h3 : d.weathercode = code :: codes)
    (h4 : d.windspeed_10m_max = wind :: winds) :
    get_today_weather env city = Except.ok
      { city := loc.name, date := env.todayIso, temperature_max := tmax,
        temperature_min := tmin, weather_code := code, wind_speed_max := wind }
    ∧ (weatherQuery loc env.todayIso).start_date = env.todayIso
    ∧ (weatherQuery loc env.todayIso).end_date = env.todayIso := by
  refine ⟨?_, rfl, rfl⟩
  unfold get_today_weather
  rw [hgeo]
  dsimp only
  rw [hfc]
  dsimp only
  rw [h1, h2, h3, h4]
  simp

theorem c9_weather_today_witness :
    get_today_weather testWeatherEnv "Warsaw" = Except.ok
      { city := "Warsaw", date := "2026-10-12", temperature_max := 20,
        temperature_min := 10, weather_code := 3, wind_speed_max := 15 } :=
  (c9_weather_today testWeatherEnv "Warsaw" warsawLoc [] testDaily 20 10 15 3 [] [] [] []
    rfl rfl rfl rfl rfl rfl).1

/-- C3 counterexample: a MessageTrace containing no ToolInvocations at all
but containing a tool-result message.  The code seeds the answer from the
tool-result list, which is nonempty, so the answer is `"A"` while the
trace's last message content is `"B"`: the claimed fallback does not
happen. -/
theorem c3_counterexample :
    (∀ msg ∈ c3trace, msg.tool_calls = [])
    ∧ c3trace.getLast? = some { type := MsgType.ai, content := "B", tool_calls := [] }
    ∧ response_fn testEnv c3trace = Except.ok "A"
    ∧ ("A" : String) ≠ "B" :=
  ⟨by decide, rfl, rfl, by decide⟩

/-- C3 (amended): for every nonempty MessageTrace containing no
ToolInvocations *and no tool-result messages*, the answer equals the
trace's last message's content, with no city fragments appended. -/
theorem c3_amended_fallback (env : TimeEnv) (msgs : List Msg) (hne : msgs ≠ [])
    (htool : toolResults msgs = [])
    (hcalls : ∀ m ∈ msgs, m.type = MsgType.ai → m.tool_calls = []) :
    response_fn env msgs = Except.ok ((msgs.getLast hne).content) := by
  have hc : collectCities msgs = [] := collectCities_eq_nil msgs hcalls
  have hsc : sortedCities msgs = [] := by
    unfold sortedCities
    rw [hc]
    rfl
  rw [response_fn_fallback env msgs hne htool, hsc]
  rfl

theorem c3_amended_fallback_witness :
    response_fn testEnv noToolTrace = Except.ok "B" :=
  c3_amended_fallback testEnv noToolTrace (by decide) rfl (by decide)

/-- C10: the fallback to the last message's content is keyed on the absence
of tool-result messages, not of ToolInvocations: a trace with invocations
but no tool results gets the last message's content as base fragment and
still gets the per-city fragments for the cities named in those
invocations. -/
theorem c10_fallback_with_invocations (env : TimeEnv) (msgs : List Msg) (hne : msgs ≠ [])
    (htool : toolResults msgs = [])
    (hinv : ∃ m ∈ msgs, m.type = MsgType.ai ∧ m.tool_calls ≠ [])
    (hok : ∀ c ∈ sortedCities msgs, (backstopFragment env c).isOk = true) :
    response_fn env msgs = Except.ok (String.intercalate ". "
      ((msgs.getLast hne).content :: (sortedCities msgs).map (fragString env)))
    ∧ (∀ c, c ∈ sortedCities msgs ↔ c ∈ collectCities msgs) := by
  constructor
  · have hf : (sortedCities msgs).filter (fun c => (backstopFragment env c).isOk)
        = sortedCities msgs := List.filter_eq_self.mpr hok
    rw [response_fn_fallback env msgs hne htool, hf]
  · exact mem_sortedCities msgs

theorem c10_fallback_with_invocations_witness :
    response_fn testEnv c10trace = Except.ok "B. Current time in Warsaw: 13:30 CET" :=
  ((c10_fallback_with_invocations testEnv c10trace (by decide) rfl
    (by decide) (by decide)).1).trans rfl

/-- C1: when every backstop lookup succeeds, the answer is the tool-result
fragments followed by exactly one `"Current time in {city}: {HH:MM %Z}"`
fragment (`fragString`) per distinct discovered city, in sorted code-point
order, all joined with `". "`; the city list is strictly sorted (hence
duplicate-free) and contains exactly the cities appearing under the keys
`city_name`/`source_city`/`target_city` of some ToolInvocation. -/
theorem c1_backstop_fragments (env : TimeEnv) (msgs : List Msg)
    (htr : toolResults msgs ≠ [])
    (hok : ∀ c ∈ sortedCities msgs, (backstopFragment env c).isOk = true) :
    response_fn env msgs = Except.ok (String.intercalate ". "
      (toolResults msgs ++ (sortedCities msgs).map (fragString env)))
    ∧ List.Sorted (fun a b => pyLt a b = true) (sortedCities msgs)
    ∧ (sortedCities msgs).Nodup
    ∧ (∀ c, c ∈ sortedCities msgs ↔ c ∈ collectCities msgs) := by
  refine ⟨?_, sortedCities_sorted_lt msgs, sortedCities_nodup msgs, mem_sortedCities msgs⟩
  have hf : (sortedCities msgs).filter (fun c => (backstopFragment env c).isOk)
      = sortedCities msgs := List.filter_eq_self.mpr hok
  rw [response_fn_with_toolResults env msgs htr, hf]

theorem c1_backstop_fragments_witness :
    response_fn testEnv c1trace = Except.ok
      "T1. Current time in Tokyo: 21:30 JST. Current time in Warsaw: 13:30 CET" :=
  ((c1_backstop_fragments testEnv c1trace (by decide) (by decide)).1).trans rfl

/-- C2: when some discovered city's backstop lookup fails, the assembler
still returns (no raise): the answer keeps every tool-result fragment and
the fragment of every city whose lookup succeeded, omitting exactly the
failing cities. -/
theorem c2_backstop_failure_isolated (env : TimeEnv) (msgs : List Msg)
    (htr : toolResults msgs ≠ [])
    (hfail : ∃ c ∈ sortedCities msgs, (backstopFragment env c).isOk = false) :
    response_fn env msgs = Except.ok (String.intercalate ". "
      (toolResults msgs
        ++ ((sortedCities msgs).filter (fun c => (backstopFragment env c).isOk)).map
            (fragString env))) :=
  response_fn_with_toolResults env msgs htr

theorem c2_backstop_failure_isolated_witness :
    response_fn testEnv c2trace = Except.ok "toolout. Current time in Warsaw: 13:30 CET" :=
  (c2_backstop_failure_isolated testEnv c2trace (by decide) (by decide)).trans rfl

/-- C5: two cities resolving to the same timezone (in particular the same
city twice) convert without error, show the identical clock time on both
sides of the conversion, and still emit both "currently" clauses.  No
assumption on the zone's offset functions is needed: `ZoneInfo` interning
makes `astimezone` the identity here, even at DST-gap wall-clock times. -/
theorem c5_same_timezone_noop (env : TimeEnv) (a b str z : String) (h m : Int)
    (ha : get_timezone_for_city env.geo a = Except.ok z)
    (hb : get_timezone_for_city env.geo b = Except.ok z)
    (hk : env.tzKnown z = true)
    (hp : parseHM str = Except.ok (h, m))
    (hh0 : 0 ≤ h) (hh : h ≤ 23) (hm0 : 0 ≤ m) (hm : m ≤ 59) :
    convert_time env a b str = Except.ok (
      fmtHM (h * 3600 + m * 60).toNat ++ " in " ++ a ++ " = "
      ++ fmtHM (h * 3600 + m * 60).toNat ++ " in " ++ b
      ++ " (currently " ++ fmtHM ((localOfNow env z) % 86400).toNat ++ " "
      ++ env.abbrevAtUtc z env.nowUtc ++ " in " ++ a
      ++ ", " ++ fmtHM ((localOfNow env z) % 86400).toNat ++ " "
      ++ env.abbrevAtUtc z env.nowUtc ++ " in " ++ b ++ ")") := by
  rw [convert_time_eq env a b str z z h m ha hb hk hk hp hh0 hh hm0 hm]
  rw [if_pos rfl]
  have hd : pad2 h.toNat ++ ":" ++ pad2 m.toNat = fmtHM (h * 3600 + m * 60).toNat := by
    rw [pad2_pair_eq_fmtHM h.toNat m.toNat (by omega) (by omega)]
    congr 1
    omega
  rw [hd]

theorem c5_same_timezone_noop_witness :
    convert_time testEnv "Warsaw" "Warsaw" "09:30" = Except.ok
      "09:30 in Warsaw = 09:30 in Warsaw (currently 13:30 CET in Warsaw, 13:30 CET in Warsaw)" :=
  (c5_same_timezone_noop testEnv "Warsaw" "Warsaw" "09:30" "Europe/Warsaw" 9 30
    rfl rfl rfl rfl (by decide) (by decide) (by decide) (by decide)).trans rfl

/-- C4: on the success path, `convert_time` renders as source time the
parsed hour/minute placed on today's calendar date in the source zone
(the timestamp `L`), and as target time the rendering, in the target zone,
of the *absolute instant* `utcOfLocal env za L` that `L` denotes — i.e.
`localOfUtc env zb (utcOfLocal env za L)` — so offsets and DST rules of
both zones at that date enter through `offsetAtLocal`/`offsetAtUtc`; the
sentence also carries both zones' live current wall-clock times.  The
`hgap` hypothesis says the constructed source timestamp is a consistent
(non-gap) local time, which makes the same-zone identity shortcut agree
with the instant-based rendering. -/
theorem c4_convert_absolute_instant (env : TimeEnv) (s t str za zb : String) (h m : Int)
    (hs : get_timezone_for_city env.geo s = Except.ok za)
    (ht : get_timezone_for_city env.geo t = Except.ok zb)
    (hks : env.tzKnown za = true) (hkt : env.tzKnown zb = true)
    (hp : parseHM str = Except.ok (h, m))
    (hh0 : 0 ≤ h) (hh : h ≤ 23) (hm0 : 0 ≤ m) (hm : m ≤ 59)
    (hgap : env.offsetAtLocal za (localDay env za * 86400 + h * 3600 + m * 60)
      = env.offsetAtUtc za (utcOfLocal env za (localDay env za * 86400 + h * 3600 + m * 60))) :
    convert_time env s t str = Except.ok (
      fmtHM ((localDay env za * 86400 + h * 3600 + m * 60) % 86400).toNat ++ " in " ++ s ++ " = "
      ++ fmtHM ((localOfUtc env zb
          (utcOfLocal env za (localDay env za * 86400 + h * 3600 + m * 60))) % 86400).toNat
      ++ " in " ++ t
      ++ " (currently " ++ fmtHM ((localOfNow env za) % 86400).toNat ++ " "
      ++ env.abbrevAtUtc za env.nowUtc ++ " in " ++ s
      ++ ", " ++ fmtHM ((localOfNow env zb) % 86400).toNat ++ " "
      ++ env.abbrevAtUtc zb env.nowUtc ++ " in " ++ t ++ ")") := by
  rw [convert_time_eq env s t str za zb h m hs ht hks hkt hp hh0 hh hm0 hm]
  have hsrc : pad2 h.toNat ++ ":" ++ pad2 m.toNat
      = fmtHM ((localDay env za * 86400 + h * 3600 + m * 60) % 86400).toNat := by
    rw [pad2_pair_eq_fmtHM h.toNat m.toNat (by omega) (by omega)]
    congr 1
    omega
  by_cases hz : za = zb
  · rw [if_pos hz]
    have hL : localOfUtc env zb (utcOfLocal env za (localDay env za * 86400 + h * 3600 + m * 60))
        = localDay env za * 86400 + h * 3600 + m * 60 := by
      subst hz
      unfold localOfUtc utcOfLocal
      unfold utcOfLocal at hgap
      omega
    rw [hL, hsrc]
  · rw [if_neg hz, hsrc]

theorem c4_convert_absolute_instant_witness :
    convert_time testEnv "Warsaw" "Tokyo" "15:00" = Except.ok
      "15:00 in Warsaw = 23:00 in Tokyo (currently 13:30 CET in Warsaw, 21:30 JST in Tokyo)" :=
  (c4_convert_absolute_instant testEnv "Warsaw" "Tokyo" "15:00" "Europe/Warsaw" "Asia/Tokyo"
    15 0 rfl rfl rfl rfl rfl (by decide) (by decide) (by decide) (by decide) rfl).trans rfl

/-- C8 counterexample: `"15:00:30"` is not of the form `HH:MM` (it carries
a seconds component), yet `convert_time` accepts it — the extra component
is silently dropped and the call behaves exactly like `"15:00"` — so
malformed input does not always fail with a parse error. -/
theorem c8_counterexample :
    convert_time testEnv "Warsaw" "Tokyo" "15:00:30"
      = convert_time testEnv "Warsaw" "Tokyo" "15:00"
    ∧ (convert_time testEnv "Warsaw" "Tokyo" "15:00:30").isOk = true :=
  ⟨rfl, rfl⟩

/-- C8 (amended): `convert_time` splits `time_str` on `":"` after stripping
and int-parses only the first two components — further components (such as
seconds) are ignored rather than rejected — and when that parse fails
(non-integer component, or missing minute) the error is raised uncaught,
propagating out of the tool as-is. -/
theorem c8_amended_parse (env : TimeEnv) (s t str za zb : String)
    (hs : get_timezone_for_city env.geo s = Except.ok za)
    (ht : get_timezone_for_city env.geo t = Except.ok zb)
    (hks : env.tzKnown za = true) (hkt : env.tzKnown zb = true) :
    (∀ e : Err, parseHM str = Except.error e → convert_time env s t str = Except.error e)
    ∧ (∀ (h' m' : Nat) (extra : String), h' < 24 → m' < 60 →
        parseHM (pad2 h' ++ ":" ++ pad2 m' ++ ":" ++ extra)
          = Except.ok ((h' : Int), (m' : Int))) := by
  constructor
  · intro e he
    unfold convert_time
    rw [hs]
    dsimp only
    rw [ht]
    dsimp only
    rw [hks, hkt]
    simp only [Bool.true_eq_false, if_false]
    rw [he]
  · intro h' m' extra hh hm
    exact parseHM_pad2_extra h' m' hh hm extra

theorem c8_amended_parse_witness :
    convert_time testEnv "Warsaw" "Tokyo" "abc" = Except.error Err.valueError
    ∧ parseHM (pad2 15 ++ ":" ++ pad2 0 ++ ":" ++ "30") = Except.ok (15, 0) :=
  ⟨(c8_amended_parse testEnv "Warsaw" "Tokyo" "abc" "Europe/Warsaw" "Asia/Tokyo"
      rfl rfl rfl rfl).1 Err.valueError rfl,
   (c8_amended_parse testEnv "Warsaw" "Tokyo" "abc" "Europe/Warsaw" "Asia/Tokyo"
      rfl rfl rfl rfl).2 15 0 "30" (by decide) (by decide)⟩

/-- C7: round trip at constant whole-hour offsets.  For two resolvable
cities whose zones keep constant whole-hour UTC offsets `ca` and `cb`,
the forward conversion displays the target clock time
`(tod + cb - ca) % 86400` (with `tod` the parsed time of day in seconds),
and feeding that displayed clock time into the swapped conversion displays
exactly the original clock time `HH:MM` again. -/
theorem c7_round_trip (env : TimeEnv) (a b str za zb : String) (h m ca cb : Int)
    (ha : get_timezone_for_city env.geo a = Except.ok za)
    (hb : get_timezone_for_city env.geo b = Except.ok zb)
    (hka : env.tzKnown za = true) (hkb : env.tzKnown zb = true)
    (hoa : ∀ u : Int, env.offsetAtUtc za u = ca)
    (hla : ∀ l : Int, env.offsetAtLocal za l = ca)
    (hob : ∀ u : Int, env.offsetAtUtc zb u = cb)
    (hlb : ∀ l : Int, env.offsetAtLocal zb l = cb)
    (hwa : ca % 3600 = 0) (hwb : cb % 3600 = 0)
    (hp : parseHM str = Except.ok (h, m))
    (hh0 : 0 ≤ h) (hh : h ≤ 23) (hm0 : 0 ≤ m) (hm : m ≤ 59) :
    0 ≤ (h * 3600 + m * 60 + cb - ca) % 86400
    ∧ (h * 3600 + m * 60 + cb - ca) % 86400 < 86400
    ∧ convert_time env a b str = Except.ok (
        fmtHM (h * 3600 + m * 60).toNat ++ " in " ++ a ++ " = "
        ++ fmtHM ((h * 3600 + m * 60 + cb - ca) % 86400).toNat ++ " in " ++ b
        ++ " (currently " ++ fmtHM ((localOfNow env za) % 86400).toNat ++ " "
        ++ env.abbrevAtUtc za env.nowUtc ++ " in " ++ a
        ++ ", " ++ fmtHM ((localOfNow env zb) % 86400).toNat ++ " "
        ++ env.abbrevAtUtc zb env.nowUtc ++ " in " ++ b ++ ")")
    ∧ convert_time env b a (fmtHM ((h * 3600 + m * 60 + cb - ca) % 86400).toNat)
      = Except.ok (
        fmtHM ((h * 3600 + m * 60 + cb - ca) % 86400).toNat ++ " in " ++ b ++ " = "
        ++ fmtHM (h * 3600 + m * 60).toNat ++ " in " ++ a
        ++ " (currently " ++ fmtHM ((localOfNow env zb) % 86400).toNat ++ " "
        ++ env.abbrevAtUtc zb env.nowUtc ++ " in " ++ b
        ++ ", " ++ fmtHM ((localOfNow env za) % 86400).toNat ++ " "
        ++ env.abbrevAtUtc za env.nowUtc ++ " in " ++ a ++ ")") := by
  have hsrc : pad2 h.toNat ++ ":" ++ pad2 m.toNat = fmtHM (h * 3600 + m * 60).toNat := by
    rw [pad2_pair_eq_fmtHM h.toNat m.toNat (by omega) (by omega)]
    congr 1
    omega
  by_cases hz : za = zb
  · -- same zone: the offsets agree, the shift cancels, and the conversion
    -- is the identity in both directions
    subst hz
    have hcc : ca = cb := (hoa 0).symm.trans (hob 0)
    have hT : (h * 3600 + m * 60 + cb - ca) % 86400 = h * 3600 + m * 60 := by omega
    rw [hT]
    refine ⟨by omega, by omega, ?_, ?_⟩
    · rw [convert_time_eq env a b str za za h m ha hb hka hka hp hh0 hh hm0 hm,
        if_pos rfl, hsrc]
    · have hp2 := parseHM_fmtHM (h * 3600 + m * 60).toNat (by omega)
      rw [convert_time_eq env b a (fmtHM (h * 3600 + m * 60).toNat) za za
        (((h * 3600 + m * 60).toNat / 3600 : Nat) : Int)
        (((h * 3600 + m * 60).toNat % 3600 / 60 : Nat) : Int)
        hb ha hka hka hp2 (by omega) (by omega) (by omega) (by omega),
        if_pos rfl]
      have hsrc2 : pad2 ((((h * 3600 + m * 60).toNat / 3600 : Nat) : Int)).toNat ++ ":"
          ++ pad2 ((((h * 3600 + m * 60).toNat % 3600 / 60 : Nat) : Int)).toNat
          = fmtHM (h * 3600 + m * 60).toNat := by
        rw [pad2_pair_eq_fmtHM _ _ (by omega) (by omega)]
        congr 1
        omega
      rw [hsrc2]
  · -- distinct zones: shift by cb - ca and back
    refine ⟨by omega, by omega, ?_, ?_⟩
    · rw [convert_time_eq env a b str za zb h m ha hb hka hkb hp hh0 hh hm0 hm,
        if_neg hz, hsrc]
      have htgt : (localOfUtc env zb
          (utcOfLocal env za (localDay env za * 86400 + h * 3600 + m * 60))) % 86400
          = (h * 3600 + m * 60 + cb - ca) % 86400 := by
        unfold localOfUtc utcOfLocal
        rw [hla, hob]
        omega
      rw [htgt]
    · have ht60 : ((h * 3600 + m * 60 + cb - ca) % 86400) % 60 = 0 := by omega
      have hp2 := parseHM_fmtHM ((h * 3600 + m * 60 + cb - ca) % 86400).toNat (by omega)
      rw [convert_time_eq env b a (fmtHM ((h * 3600 + m * 60 + cb - ca) % 86400).toNat) zb za
        ((((h * 3600 + m * 60 + cb - ca) % 86400).toNat / 3600 : Nat) : Int)
        ((((h * 3600 + m * 60 + cb - ca) % 86400).toNat % 3600 / 60 : Nat) : Int)
        hb ha hkb hka hp2 (by omega) (by omega) (by omega) (by omega),
        if_neg (fun hzz => hz hzz.symm)]
      have hsrc2 : pad2 (((((h * 3600 + m * 60 + cb - ca) % 86400).toNat / 3600 : Nat) : Int)).toNat
          ++ ":"
          ++ pad2 (((((h * 3600 + m * 60 + cb - ca) % 86400).toNat % 3600 / 60 : Nat) : Int)).toNat
          = fmtHM ((h * 3600 + m * 60 + cb - ca) % 86400).toNat := by
        rw [pad2_pair_eq_fmtHM _ _ (by omega) (by omega)]
        congr 1
        omega
      rw [hsrc2]
      have htgt2 : (localOfUtc env za
          (utcOfLocal env zb (localDay env zb * 86400
            + ((((h * 3600 + m * 60 + cb - ca) % 86400).toNat / 3600 : Nat) : Int) * 3600
            + ((((h * 3600 + m * 60 + cb - ca) % 86400).toNat % 3600 / 60 : Nat) : Int) * 60)))
          % 86400
          = h * 3600 + m * 60 := by
        unfold localOfUtc utcOfLocal
        rw [hlb, hoa]
        omega
      rw [htgt2]

theorem c7_round_trip_witness :
    convert_time testEnv "Warsaw" "Tokyo" "15:00" = Except.ok
      "15:00 in Warsaw = 23:00 in Tokyo (currently 13:30 CET in Warsaw, 21:30 JST in Tokyo)"
    ∧ convert_time testEnv "Tokyo" "Warsaw" "23:00" = Except.ok
      "23:00 in Tokyo = 15:00 in Warsaw (currently 21:30 JST in Tokyo, 13:30 CET in Warsaw)" :=
  have hx := c7_round_trip testEnv "Warsaw" "Tokyo" "15:00" "Europe/Warsaw" "Asia/Tokyo"
    15 0 3600 32400 rfl rfl rfl rfl (fun _ => rfl) (fun _ => rfl) (fun _ => rfl) (fun _ => rfl)
    (by decide) (by decide) rfl (by decide) (by decide) (by decide) (by decide)
  ⟨hx.2.2.1.trans rfl, hx.2.2.2.trans rfl⟩

end NatDemo
